import Mathlib

/-!
Shallow embedding of the Ascentra conversational data-analysis agent
(src/ascentra_agent): the data contracts, the rule-based intent classifier,
the clarification logic and the orchestrator `Agent.handle_message`,
together with theorems settling the specification claims.

External collaborators (the structured LLM call behind the chat responder,
high-level planner, cut planner and segment builder, and the execution
engine `ascentra_agent.engine.executor`, whose source is not part of the
repository snapshot) are modelled as oracle functions supplied in an `Env`
record; everything else is translated directly from the Python source.
-/

namespace Ascentra

/-! ## Python string primitives -/

/-- Boolean test that the first character list is a prefix of the second. -/
def isPrefixList : List Char → List Char → Bool
  | [], _ => true
  | _ :: _, [] => false
  | a :: as, b :: bs => a = b && isPrefixList as bs

/-- Boolean test that the first character list occurs contiguously inside the
second: the semantics of the Python `needle in haystack` operator on strings. -/
def subList (needle : List Char) : List Char → Bool
  | [] => needle.isEmpty
  | c :: rest => isPrefixList needle (c :: rest) || subList needle rest

/-- Python `needle in haystack` substring containment on strings. -/
def pyIn (needle haystack : String) : Bool :=
  subList needle.toList haystack.toList

/-- Python `str.lower()` (ASCII case folding, which covers the catalog and
pattern vocabulary). -/
def pyLower (s : String) : String :=
  ⟨s.toList.map Char.toLower⟩

/-- Python `str.strip()` with no argument: drop leading and trailing
whitespace. -/
def pyStrip (s : String) : String :=
  ⟨((s.toList.dropWhile Char.isWhitespace).reverse.dropWhile Char.isWhitespace).reverse⟩

/-- Accumulating worker for `pySplit`; the accumulator holds the current
word reversed. -/
def pySplitAux : List Char → List Char → List String
  | [], acc => if acc.isEmpty then [] else [⟨acc.reverse⟩]
  | c :: rest, acc =>
    if c.isWhitespace then
      if acc.isEmpty then pySplitAux rest [] else (⟨acc.reverse⟩ : String) :: pySplitAux rest []
    else pySplitAux rest (c :: acc)

/-- Python `str.split()` with no argument: split on whitespace runs,
discarding empty pieces. -/
def pySplit (s : String) : List String :=
  pySplitAux s.toList []

/-- Python `str.isdigit()` restricted to ASCII digits: true on nonempty
all-digit strings. -/
def pyIsDigitStr (s : String) : Bool :=
  s ≠ "" && s.toList.all Char.isDigit

/-- Python `int(text)` for an all-digit string; other strings are out of the
modelled domain and map to 0. -/
def pyStrToNat (s : String) : Nat :=
  s.toList.foldl (fun acc c => acc * 10 + (c.toNat - '0'.toNat)) 0

/-- Prefix test on strings, used to state the plan-message claim. -/
def pyStartsWith (s pre : String) : Bool :=
  isPrefixList pre.toList s.toList

/-- Python `"\n".join(lines)` and friends: interleave the separator between
the pieces by a left fold. -/
def pyJoin (sep : String) : List String → String
  | [] => ""
  | l :: rest => rest.foldl (fun acc x => acc ++ sep ++ x) l

/-! ## Data contracts (src/ascentra_agent/contracts) -/

/-- Question type enumeration of the survey catalog
(`contracts/questions.py`; that file is absent from the snapshot, the
variant set is fixed by `contracts/validate.py` and the spec data model). -/
inductive QuestionType where
  | single_choice
  | multi_choice
  | likert_1_5
  | likert_1_7
  | nps_0_10
  | numeric
deriving DecidableEq, Repr

/-- Modelled from the spec: a survey catalog question (`question_id`, `label`,
`type`), the fields `agent.py` and the intent classifier read; the defining
module `contracts/questions.py` is not in the snapshot. -/
structure Question where
  question_id : String
  label : String
  type : QuestionType
deriving DecidableEq, Repr

/-- Scalar literal appearing in filter predicates: Python `str | int`
(floats appear in the source type unions but in no claim and are not
modelled). -/
inductive PyVal where
  | pstr (s : String)
  | pint (n : Int)
deriving DecidableEq, Repr

/-- Filter expression tree from `contracts/filters.py`: eight leaf
predicates and the composite and / or / not nodes. -/
inductive FilterExpr where
  | peq (question_id : String) (value : PyVal)
  | pin (question_id : String) (values : List PyVal)
  | prange (question_id : String) (min max : PyVal) (inclusive : Bool)
  | pcontainsAny (question_id : String) (values : List PyVal)
  | pgt (question_id : String) (value : PyVal)
  | pgte (question_id : String) (value : PyVal)
  | plt (question_id : String) (value : PyVal)
  | plte (question_id : String) (value : PyVal)
  | pand (children : List FilterExpr)
  | por (children : List FilterExpr)
  | pnot (child : FilterExpr)
deriving Repr

/-- Segment specification from `contracts/specs.py`. -/
structure SegmentSpec where
  segment_id : String
  name : String
  definition : FilterExpr
  intended_partition : Bool := false
  notes : Option String := none
deriving Repr

/-- Closed metric set of `MetricSpec.type` (`contracts/specs.py`); any other
value is rejected by the schema boundary before a `CutSpec` exists. -/
inductive MetricType where
  | frequency
  | mean
  | top2box
  | bottom2box
  | nps
deriving DecidableEq, Repr

/-- String rendering of a metric type, as a Python f-string renders the
`Literal` value. -/
def MetricType.render : MetricType → String
  | .frequency => "frequency"
  | .mean => "mean"
  | .top2box => "top2box"
  | .bottom2box => "bottom2box"
  | .nps => "nps"

/-- Metric specification from `contracts/specs.py`; the free-form `params`
mapping is modelled as a string association list. -/
structure MetricSpec where
  type : MetricType
  question_id : String
  params : List (String × String) := []
deriving Repr

/-- Dimension kind of `DimensionSpec.kind`. -/
inductive DimKind where
  | question
  | segment
deriving DecidableEq, Repr

/-- Dimension specification from `contracts/specs.py`. -/
structure DimensionSpec where
  kind : DimKind
  id : String
deriving Repr

/-- Cut specification from `contracts/specs.py`: the unit of execution. -/
structure CutSpec where
  cut_id : String
  metric : MetricSpec
  dimensions : List DimensionSpec := []
  filter : Option FilterExpr := none
deriving Repr

/-- Analysis intent item of a high-level plan (`contracts/specs.py`). -/
structure AnalysisIntent where
  intent_id : String
  description : String
  segments_needed : List String := []
  priority : Int := 1
deriving Repr

/-- High-level plan from `contracts/specs.py`. -/
structure HighLevelPlan where
  intents : List AnalysisIntent
  rationale : String
  suggested_segments : List SegmentSpec := []
deriving Repr

/-- The five intent labels of `UserIntent.intent_type`. -/
inductive IntentType where
  | chat
  | high_level_plan
  | cut_analysis
  | segment_definition
  | clarify
deriving DecidableEq, Repr

/-- Classified user intent (`contracts/specs.py`); confidence is a rational
standing for the Python float literal. -/
structure UserIntent where
  intent_type : IntentType
  confidence : ℚ := 1.0
  reasoning : String := ""
deriving Repr

/-- Action type labels shared by `Action` and `DisambiguationOption`. -/
inductive ActionType where
  | cut_analysis
  | high_level_plan
  | segment_definition
  | chat
deriving DecidableEq, Repr

/-- Disambiguation option from `contracts/specs.py`; the `action_params`
mapping is modelled as a string association list (the orchestrator reads
the keys question_id and request). -/
structure DisambiguationOption where
  option_id : String
  label : String
  action_type : ActionType
  action_params : List (String × String) := []
deriving Repr

/-- Clarification request from `contracts/specs.py`. -/
structure ClarifyRequest where
  question : String
  options : List DisambiguationOption := []
deriving Repr

/-- Chat tool payload from `contracts/specs.py`; `suggested_actions` is
carried but never read by the orchestrator and is modelled as labels. -/
structure ChatResponse where
  message : String
  suggested_actions : List String := []
deriving Repr

/-- End-user response envelope from `contracts/specs.py`; the `data` payload
is `Any`-typed diagnostic cargo no claim references and is omitted. -/
structure AgentResponse where
  intent : UserIntent
  success : Bool
  message : Option String := none
  errors : List String := []
  clarify : Option ClarifyRequest := none
deriving Repr

/-- Error or warning message from `contracts/tool_output.py`; the free-form
debug `context` mapping is modelled as string pairs. -/
structure ToolMessage where
  code : String
  message : String
  context : List (String × String) := []
deriving Repr

/-- Tool output envelope from `contracts/tool_output.py`; the diagnostic
`trace` mapping is never surfaced and is omitted. -/
structure ToolOutput (α : Type) where
  ok : Bool
  data : Option α := none
  errors : List ToolMessage := []
  warnings : List ToolMessage := []
deriving Repr

/-- Constructor mirroring `ToolOutput.success`. -/
def ToolOutput.succeed {α : Type} (data : α) : ToolOutput α :=
  { ok := true, data := some data }

/-- Constructor mirroring `ToolOutput.failure`. -/
def ToolOutput.failure {α : Type} (errors : List ToolMessage) : ToolOutput α :=
  { ok := false, data := none, errors := errors }

/-- Helper mirroring `err` of `contracts/tool_output.py`. -/
def err (code message : String) : ToolMessage :=
  { code := code, message := message }

/-- Structured payload the cut planner expects from the LLM
(`tools/cut_planner.py`). -/
structure CutPlanResult where
  ok : Bool := true
  cut : CutSpec
  resolution_map : List (String × String) := []
  ambiguity_options : List String := []
deriving Repr

/-- Modelled from the spec: one result table of the executor
(`ascentra_agent/engine/executor.py` is absent from the snapshot); `base_n`
is the filtered row count and `preview` the rendered dataframe head used in
the display message (`none` when the frame is empty). -/
structure ResultTable where
  base_n : Nat
  preview : Option String := none
deriving Repr

/-- Modelled from the spec: the executor result envelope with per-cut error
strings; the `segments_computed` cache is internal to the engine and no
claim references it. -/
structure ExecutionResult where
  tables : List ResultTable := []
  errors : List String := []
deriving Repr

/-! ## Domain validation helpers (src/ascentra_agent/contracts/validate.py)

The source file notes that the MVP intentionally avoids strict domain
validation; `check_metric_compatibility` is defined there but never invoked
by the orchestrator. -/

/-- Compatibility table `METRIC_TYPE_COMPATIBILITY`: which question types
each metric string applies to; a key is a metric-type string because the
source accepts arbitrary strings and reports unknown ones. -/
def METRIC_TYPE_COMPATIBILITY : List (String × List QuestionType) :=
  [ ("frequency", [.single_choice, .multi_choice, .likert_1_5, .likert_1_7, .nps_0_10, .numeric])
  , ("mean", [.likert_1_5, .likert_1_7, .numeric, .nps_0_10])
  , ("top2box", [.likert_1_5, .likert_1_7])
  , ("bottom2box", [.likert_1_5, .likert_1_7])
  , ("nps", [.nps_0_10]) ]

/-- Validator `check_metric_compatibility`: `none` means compatible, `some`
carries the error message (debug context fields omitted). -/
def check_metric_compatibility (metric_type : String) (question_type : QuestionType) :
    Option ToolMessage :=
  match (METRIC_TYPE_COMPATIBILITY.find? (fun kv => kv.1 = metric_type)).map Prod.snd with
  | none => some (err "unknown_metric_type" ("Unknown metric type: " ++ metric_type))
  | some compatible_types =>
    if question_type ∈ compatible_types then none
    else some (err "metric_incompatible"
      ("Metric " ++ metric_type ++ " is not compatible with question type"))

/-! ## Intent classifier (src/ascentra_agent/tools/intent_classifier.py)

The classifier is a pure function of the prompt and the question catalog.
Pattern lists are transcribed in source order; first match wins. The source
wraps matched phrases of the reasoning strings in single quotes, which are
omitted here, and renders the matched-token list with Python list syntax,
approximated by comma separation; no claim reads the reasoning field. -/

/-- Tier 1 phrases `plan_verbs`. -/
def plan_verbs : List String :=
  [ "create an analysis plan", "create analysis plan"
  , "plan the analysis", "plan an analysis"
  , "suggest a plan", "suggest an analysis plan"
  , "suggest a plan for"
  , "what should we analyze", "what should i analyze"
  , "give me a roadmap", "roadmap of analyses" ]

/-- Tier 2 `analysis_action_verbs`. -/
def analysis_action_verbs : List String := ["analyze", "show", "display"]

/-- Tier 2 `segment_words`. -/
def segment_words : List String := ["segment", "cohort", "audience"]

/-- Tier 3 phrases `segment_verbs`. -/
def segment_verbs : List String :=
  [ "define segment", "create segment", "build segment"
  , "define a segment", "create a segment", "build a segment"
  , "define cohort", "create cohort", "build cohort"
  , "build a cohort for", "build cohort for"
  , "define audience", "create audience", "build audience"
  , "create an audience", "build an audience"
  , "filter to customers", "filter to users" ]

/-- Tier 3 phrases `segment_patterns`. -/
def segment_patterns : List String :=
  ["users who are", "users aged", "customers aged", "customers who"]

/-- Tier 4 phrases `chat_patterns`. -/
def chat_patterns : List String :=
  [ "hello", "hi", "hey", "help", "thanks", "thank you"
  , "what can you do", "how does this work", "what is a"
  , "how do i", "can you explain", "tell me about" ]

/-- Tier 4 phrases `casual_phrases`. -/
def casual_phrases : List String :=
  [ "my plan is", "our plan is", "the plan is"
  , "what is a segment", "what is a cut", "explain segment"
  , "pricing plan", "subscription plan", "plan problem" ]

/-- Tier 5 `analysis_verbs`. -/
def analysis_verbs : List String :=
  [ "show", "analyze", "display", "break down", "breakdown"
  , "distribution", "frequency", "compare", "average"
  , "mean", "count", "percentage", "what is the" ]

/-- Classifier `IntentClassifier._classify_intent`, transcribed tier by tier.
The source iterates a Python set when picking the reported matched question
id; only its existence affects the outcome, and the embedding reports the
first catalog match in list order. -/
def classifyIntent (prompt : String) (questions : List Question) : UserIntent :=
  let text := pyStrip (pyLower prompt)
  let question_ids := questions.map (fun q => pyLower q.question_id)
  let question_labels := (questions.map (fun q => pySplit (pyLower q.label))).flatten
  match plan_verbs.find? (fun verb => pyIn verb text) with
  | some verb =>
    { intent_type := .high_level_plan, confidence := 0.95
    , reasoning := "Analysis planning phrase detected: " ++ verb }
  | none =>
  let has_analysis_action := analysis_action_verbs.any (fun verb => pyIn verb text)
  let has_segment_word := segment_words.any (fun word => pyIn word text)
  if has_analysis_action && has_segment_word then
    { intent_type := .cut_analysis, confidence := 0.9
    , reasoning := "Multi-intent detected: analysis action takes priority" }
  else
  match segment_verbs.find? (fun verb => pyIn verb text) with
  | some verb =>
    { intent_type := .segment_definition, confidence := 0.95
    , reasoning := "Segment creation verb detected: " ++ verb }
  | none =>
  match segment_patterns.find? (fun pat => pyIn pat text) with
  | some pat =>
    { intent_type := .segment_definition, confidence := 0.9
    , reasoning := "Segment filter pattern detected: " ++ pat }
  | none =>
  match chat_patterns.find? (fun pat => pyIn pat text) with
  | some pat =>
    { intent_type := .chat, confidence := 0.9
    , reasoning := "Conversational pattern detected: " ++ pat }
  | none =>
  match casual_phrases.find? (fun phrase => pyIn phrase text) with
  | some phrase =>
    { intent_type := .chat, confidence := 0.9
    , reasoning := "Casual mention detected: " ++ phrase }
  | none =>
  let matched_question := question_ids.find? (fun qid => pyIn qid text)
  let has_question_reference := matched_question.isSome
  let has_analysis_verb := analysis_verbs.any (fun verb => pyIn verb text)
  if has_question_reference && has_analysis_verb then
    { intent_type := .cut_analysis, confidence := 0.95
    , reasoning := "Analysis verb + question reference (" ++ matched_question.getD "" ++ ")" }
  else if has_question_reference then
    { intent_type := .cut_analysis, confidence := 0.85
    , reasoning := "Question reference detected: " ++ matched_question.getD "" }
  else if pyIn " by " text && has_analysis_verb then
    { intent_type := .cut_analysis, confidence := 0.8
    , reasoning := "Analysis pattern with by dimension detected" }
  else
  let label_matches := (pySplit text).filter (fun token => question_labels.contains token)
  if has_analysis_verb && !label_matches.isEmpty then
    { intent_type := .cut_analysis, confidence := 0.75
    , reasoning := "Analysis verb + question label tokens: " ++ pyJoin ", " label_matches }
  else
    { intent_type := .chat, confidence := 0.5
    , reasoning := "No clear intent pattern detected, defaulting to chat" }

/-- Tool wrapper `IntentClassifier.run`: empty prompt yields a
missing-prompt failure, otherwise the pure classification is returned in a
success envelope (the except branch of the source is unreachable because
the classifier body is total). -/
def intentClassifierRun (prompt : String) (questions : List Question) :
    ToolOutput UserIntent :=
  if prompt = "" then ToolOutput.failure [err "missing_prompt" "No user input provided"]
  else ToolOutput.succeed (classifyIntent prompt questions)

/-! ## Orchestrator (src/ascentra_agent/orchestrator/agent.py) -/

/-- Lookup in `questions_by_id`: the dict comprehension keeps the last
question for a duplicated id, hence the reversed search. -/
def lookupQuestion (questions : List Question) (qid : String) : Option Question :=
  questions.reverse.find? (fun q => q.question_id = qid)

/-- Label helper `_q_label`. -/
def qLabelStr (qid : String) (questions : List Question) : String :=
  match lookupQuestion questions qid with
  | none => qid
  | some q => q.label ++ " (" ++ q.question_id ++ ")"

/-- Lookup in the session segment map; the orchestrator keeps its keys
unique, so plain association-list search models the Python dict. -/
def lookupSegment (segments_by_id : List (String × SegmentSpec)) (sid : String) :
    Option SegmentSpec :=
  (segments_by_id.find? (fun kv => kv.1 = sid)).map Prod.snd

/-- Label helper `_segment_label`. -/
def segLabelStr (sid : String) (segments_by_id : List (String × SegmentSpec)) : String :=
  match lookupSegment segments_by_id sid with
  | none => sid
  | some s => s.name ++ " (" ++ s.segment_id ++ ")"

/-- Rendering of a scalar literal as a Python f-string does. -/
def pyShowVal : PyVal → String
  | .pstr s => s
  | .pint n => toString n

/-- Rendering of a literal list as Python prints it, with single-character
quote marks around strings approximated away (diagnostic text only). -/
def pyShowVals (vs : List PyVal) : String :=
  "[" ++ pyJoin ", " (vs.map pyShowVal) ++ "]"

mutual

/-- Formatter `_format_filter`, transcribed case by case. -/
def formatFilter (questions : List Question) : FilterExpr → String
  | .peq qid v => qLabelStr qid questions ++ " == " ++ pyShowVal v
  | .pin qid vs => qLabelStr qid questions ++ " in " ++ pyShowVals vs
  | .prange qid mn mx incl =>
      qLabelStr qid questions ++ (if incl then " between [" else " strictly between [")
        ++ pyShowVal mn ++ ", " ++ pyShowVal mx ++ "]"
  | .pcontainsAny qid vs => qLabelStr qid questions ++ " contains any of " ++ pyShowVals vs
  | .pgt qid v => qLabelStr qid questions ++ " > " ++ pyShowVal v
  | .pgte qid v => qLabelStr qid questions ++ " >= " ++ pyShowVal v
  | .plt qid v => qLabelStr qid questions ++ " < " ++ pyShowVal v
  | .plte qid v => qLabelStr qid questions ++ " <= " ++ pyShowVal v
  | .pand cs => "(" ++ pyJoin " AND " (formatFilterList questions cs) ++ ")"
  | .por cs => "(" ++ pyJoin " OR " (formatFilterList questions cs) ++ ")"
  | .pnot c => "(NOT " ++ formatFilter questions c ++ ")"

/-- Recursion over the children lists of composite filter nodes. -/
def formatFilterList (questions : List Question) : List FilterExpr → List String
  | [] => []
  | e :: rest => formatFilter questions e :: formatFilterList questions rest

end

/-- Rendering of the metric params association list; Python prints the dict
literal, whose braces are kept. -/
def pyShowParams (ps : List (String × String)) : String :=
  "\x7b" ++ pyJoin ", " (ps.map (fun kv => kv.1 ++ ": " ++ kv.2)) ++ "\x7d"

/-- Formatter `_format_cut_spec`. -/
def formatCutSpec (cut : CutSpec) (questions : List Question)
    (segments_by_id : List (String × SegmentSpec)) : String :=
  let metric := cut.metric.type.render ++ " on " ++ qLabelStr cut.metric.question_id questions
  let dims := cut.dimensions.map (fun d =>
    match d.kind with
    | .question => qLabelStr d.id questions
    | .segment => segLabelStr d.id segments_by_id)
  let filter_str := cut.filter.map (formatFilter questions)
  let lines :=
    [ "CutSpec:"
    , "- cut_id: " ++ cut.cut_id
    , "- metric: " ++ metric
    , "- dimensions: " ++ (if dims.isEmpty then "(none)" else pyJoin ", " dims)
    , "- filter: " ++ filter_str.getD "(none)" ]
  let lines := if cut.metric.params.isEmpty then lines
    else lines ++ ["- metric_params: " ++ pyShowParams cut.metric.params]
  pyJoin "\n" lines

/-- Order-preserving de-duplication by `option_id`
(`Agent._maybe_build_clarification`). -/
def dedupOptions (seen : List String) : List DisambiguationOption → List DisambiguationOption
  | [] => []
  | o :: rest =>
    if seen.contains o.option_id then dedupOptions seen rest
    else o :: dedupOptions (o.option_id :: seen) rest

/-- Plan-collision trigger of `_maybe_build_clarification`: the token plan
with a plan-labelled or Q_PLAN question in the catalog. -/
def planCollision (questions : List Question) (tokens : List String) : Bool :=
  tokens.contains "plan" && questions.any (fun q =>
    pyIn "plan" (pyLower q.label) || pyLower q.question_id == "q_plan")

/-- Question matches of the single-token ambiguity trigger: the lowered
token equals a question id or occurs inside a lowered label. -/
def singleTokenMatches (questions : List Question) (single_token : Bool) (t : String) :
    List Question :=
  questions.filter (fun q =>
    single_token && (t == pyLower q.question_id || pyIn t (pyLower q.label)))

/-- Options the plan collision contributes: the planning command first,
then the literal Q_PLAN cut when the catalog holds that id. -/
def planOptions (questions : List Question) : List DisambiguationOption :=
  { option_id := "opt_high_level_plan", label := "Create analysis plan"
  , action_type := .high_level_plan } ::
  (match lookupQuestion questions "Q_PLAN" with
   | some q_plan =>
     [ { option_id := "opt_cut_q_plan"
       , label := "Analyze " ++ qLabelStr q_plan.question_id questions
       , action_type := .cut_analysis
       , action_params := [("question_id", q_plan.question_id)] } ]
   | none => [])

/-- Option offered for one ambiguously matched question. -/
def matchOption (questions : List Question) (q : Question) : DisambiguationOption :=
  { option_id := "opt_cut_" ++ q.question_id
  , label := "Analyze " ++ qLabelStr q.question_id questions
  , action_type := ActionType.cut_analysis
  , action_params := [("question_id", q.question_id)] }

/-- Clarification builder `Agent._maybe_build_clarification`, transcribed:
single-token multi-match ambiguity and the plan collision, up to five
options, de-duplicated by option id. -/
def maybeBuildClarification (questions : List Question) (user_input : String) :
    Option ClarifyRequest :=
  let token := pyStrip user_input
  if token = "" then none
  else
    let t := pyStrip (pyLower token)
    let tokens := pySplit t
    let plan_collision := planCollision questions tokens
    let single_token := tokens.length == 1
    let question_matches := singleTokenMatches questions single_token t
    if (single_token && decide (question_matches.length ≤ 1)) && !plan_collision then none
    else
      let options := (if plan_collision then planOptions questions else []) ++
        (question_matches.take 5).map (matchOption questions)
      let deduped := dedupOptions [] options
      if deduped.isEmpty then none
      else some { question := "I am not sure what you meant. Which of these did you want?"
                , options := deduped.take 5 }

/-! ## Oracle environment for the external collaborators -/

/-- Oracle for the structured-completion collaborator behind each tool and
for the execution engine. A function returns `Except.error e` when the LLM
call raises with text `e` (network, timeout or schema validation), and
`Except.ok` with the schema-validated instance otherwise. `execCuts` is
modelled from the spec: the engine (absent from the snapshot) maps a cut
batch to result tables and per-cut error strings. -/
structure Env where
  chatOracle : String → Except String ChatResponse
  planOracle : String → Except String HighLevelPlan
  cutOracle : String → Except String CutPlanResult
  segOracle : String → Except String SegmentSpec
  execCuts : List CutSpec → ExecutionResult

/-- Tool `ChatResponder.run`. -/
def chatResponderRun (env : Env) (prompt : String) : ToolOutput ChatResponse :=
  if prompt = "" then ToolOutput.failure [err "missing_prompt" "No user input provided"]
  else match env.chatOracle prompt with
    | .error e => ToolOutput.failure [err "tool_error" ("Chat failed: " ++ e)]
    | .ok resp => ToolOutput.succeed resp

/-- Tool `HighLevelPlanner.run` (the source has no empty-prompt guard here). -/
def highLevelPlannerRun (env : Env) (prompt : String) : ToolOutput HighLevelPlan :=
  match env.planOracle prompt with
  | .error e => ToolOutput.failure [err "tool_error" ("Plan failed: " ++ e)]
  | .ok plan => ToolOutput.succeed plan

/-- Tool `CutPlanner.run`: empty-prompt guard, planner-declined mapping and
exception mapping around the oracle. -/
def cutPlannerRun (env : Env) (prompt : String) : ToolOutput CutSpec :=
  if prompt = "" then ToolOutput.failure [err "missing_prompt" "No analysis request provided"]
  else match env.cutOracle prompt with
    | .error e => ToolOutput.failure [err "tool_error" ("Cut planning failed: " ++ e)]
    | .ok plan =>
      if !plan.ok then ToolOutput.failure [err "planning_failed" "Cut planner returned ok=false"]
      else ToolOutput.succeed plan.cut

/-- Tool `SegmentBuilder.run`. -/
def segmentBuilderRun (env : Env) (prompt : String) : ToolOutput SegmentSpec :=
  if prompt = "" then ToolOutput.failure [err "missing_prompt" "No segment description provided"]
  else match env.segOracle prompt with
    | .error e => ToolOutput.failure [err "tool_error" ("Segment failed: " ++ e)]
    | .ok seg => ToolOutput.succeed seg

/-! ## Session state, turn accounting and the message handler -/

/-- Mutable session state of `Agent`: the insertion-ordered segment list,
the segment map keyed by `segment_id` (a Python dict, modelled as an
association list with in-place value replacement), and the single pending
clarification slot `_pending_actions`. -/
structure AgentState where
  segments : List SegmentSpec := []
  segments_by_id : List (String × SegmentSpec) := []
  pending : Option (List DisambiguationOption) := none

/-- Python dict update `d[k] = v`: replace in place when the key exists
(keeping its position), append otherwise. -/
def dictInsert (k : String) (v : SegmentSpec) :
    List (String × SegmentSpec) → List (String × SegmentSpec)
  | [] => [(k, v)]
  | kv :: rest => if kv.1 = k then (k, v) :: rest else kv :: dictInsert k v rest

/-- Count of collaborator invocations within one turn, used to state the
no-execution and no-tool-call claims. -/
structure TurnLog where
  intentCalls : Nat := 0
  chatCalls : Nat := 0
  planCalls : Nat := 0
  cutPlanCalls : Nat := 0
  segBuildCalls : Nat := 0
  execCalls : Nat := 0
deriving Repr

/-- Result of one `handle_message` turn: the response, the state after the
turn and the invocation log. -/
structure TurnResult where
  resp : AgentResponse
  state : AgentState
  log : TurnLog

/-- Message of a clarification turn: the question, a blank line, the
numbered options and the closing instruction, joined by newlines. -/
def clarifyMessage (c : ClarifyRequest) : String :=
  pyJoin "\n"
    ([c.question, "", "Please choose one:"]
      ++ c.options.enum.map (fun io => toString (io.1 + 1) ++ ") " ++ io.2.label)
      ++ ["Reply with a number."])

/-- Message of a successful high-level-plan turn: the header line and up to
twenty numbered intent descriptions. -/
def planMessage (plan : HighLevelPlan) : String :=
  pyJoin "\n"
    ("Analysis plan:" :: (plan.intents.take 20).enum.map (fun ii =>
      toString (ii.1 + 1) ++ ". " ++ ii.2.description ++ " (priority " ++ toString ii.2.priority ++ ")"))

/-- Message of a successful cut turn: the formatted cut spec, the base N and
the optional dataframe preview (`df.head(20).to_string`, modelled by the
`preview` field). -/
def cutMessage (cut : CutSpec) (questions : List Question)
    (segments_by_id : List (String × SegmentSpec)) (base_n : Nat)
    (preview : Option String) : String :=
  formatCutSpec cut questions segments_by_id ++ "\n\nBase N: " ++ toString base_n
    ++ (match preview with
        | some p => "\n\n" ++ p
        | none => "")

/-- Conversion of a tool error list into the response error strings
(`f-string code: message` in the source). -/
def errorStrings (errors : List ToolMessage) : List String :=
  errors.map (fun e => e.code ++ ": " ++ e.message)

/-- Handler body for a message processed with no pending clarification: the
clarification check, intent classification and tool dispatch of
`Agent.handle_message` after its pending-selection preamble. The value
`none` models the uncaught IndexError the source would raise at
`exec_result.tables[0]` when the engine reports neither a table nor an
error; the spec-modelled engine always reports one of the two. -/
def handleIdle (env : Env) (questions : List Question) (s : AgentState)
    (user_input : String) : Option TurnResult :=
  match maybeBuildClarification questions user_input with
  | some c =>
    some { resp :=
            { intent := { intent_type := .clarify, confidence := 1.0, reasoning := "ambiguous input" }
            , success := true
            , message := some (clarifyMessage c)
            , clarify := some c }
         , state := { s with pending := some c.options }
         , log := {} }
  | none =>
    let intent_out := intentClassifierRun user_input questions
    match intent_out.data, intent_out.ok with
    | some intent, true =>
      match intent.intent_type with
      | .high_level_plan =>
        let plan_out := highLevelPlannerRun env user_input
        match plan_out.data, plan_out.ok with
        | some plan, true =>
          some { resp := { intent := intent, success := true, message := some (planMessage plan) }
               , state := s, log := { intentCalls := 1, planCalls := 1 } }
        | _, _ =>
          some { resp := { intent := intent, success := false, errors := errorStrings plan_out.errors }
               , state := s, log := { intentCalls := 1, planCalls := 1 } }
      | .segment_definition =>
        let seg_out := segmentBuilderRun env user_input
        match seg_out.data, seg_out.ok with
        | some seg, true =>
          some { resp :=
                  { intent := intent, success := true
                  , message := some ("Created segment " ++ seg.name ++ " (" ++ seg.segment_id ++ ")") }
               , state :=
                  { s with
                    segments := s.segments.filter (fun t => t.segment_id != seg.segment_id) ++ [seg]
                    segments_by_id := dictInsert seg.segment_id seg s.segments_by_id }
               , log := { intentCalls := 1, segBuildCalls := 1 } }
        | _, _ =>
          some { resp := { intent := intent, success := false, errors := errorStrings seg_out.errors }
               , state := s, log := { intentCalls := 1, segBuildCalls := 1 } }
      | .cut_analysis =>
        let cut_out := cutPlannerRun env user_input
        match cut_out.data, cut_out.ok with
        | some cut, true =>
          let exec_result := env.execCuts [cut]
          if exec_result.errors ≠ [] then
            some { resp := { intent := intent, success := false, errors := exec_result.errors }
                 , state := s, log := { intentCalls := 1, cutPlanCalls := 1, execCalls := 1 } }
          else
            match exec_result.tables with
            | [] => none
            | table :: _ =>
              some { resp :=
                      { intent := intent, success := true
                      , message := some (cutMessage cut questions s.segments_by_id table.base_n table.preview) }
                   , state := s, log := { intentCalls := 1, cutPlanCalls := 1, execCalls := 1 } }
        | _, _ =>
          some { resp := { intent := intent, success := false, errors := errorStrings cut_out.errors }
               , state := s, log := { intentCalls := 1, cutPlanCalls := 1 } }
      | _ =>
        let chat_out := chatResponderRun env user_input
        match chat_out.data, chat_out.ok with
        | some chat, true =>
          some { resp := { intent := intent, success := true, message := some chat.message }
               , state := s, log := { intentCalls := 1, chatCalls := 1 } }
        | _, _ =>
          some { resp := { intent := intent, success := false, errors := errorStrings chat_out.errors }
               , state := s, log := { intentCalls := 1, chatCalls := 1 } }
    | _, _ =>
      some { resp :=
              { intent := { intent_type := .chat, confidence := 0.0, reasoning := "intent failed" }
              , success := false
              , errors := errorStrings intent_out.errors }
           , state := s, log := { intentCalls := 1 } }

/-- Python truthiness of an optional string parameter: an absent key and an
empty string both count as false. -/
def truthyParam (ps : List (String × String)) (k : String) : Option String :=
  match (ps.find? (fun kv => kv.1 = k)).map Prod.snd with
  | some "" => none
  | o => o

/-- Dispatcher `Agent._execute_action` for a clarification selection. The
high-level-plan and cut-analysis actions run their tool directly (no intent
classification); the segment and fallback actions re-enter
`handle_message` with the option label, which at that point has no pending
state and therefore equals the idle handler. -/
def executeAction (env : Env) (questions : List Question) (s : AgentState)
    (action : DisambiguationOption) : Option TurnResult :=
  match action.action_type with
  | .high_level_plan =>
    let plan_out := highLevelPlannerRun env "Create an analysis plan"
    match plan_out.data, plan_out.ok with
    | some plan, true =>
      some { resp :=
              { intent := { intent_type := .high_level_plan, confidence := 1.0, reasoning := "clarify selection" }
              , success := true, message := some (planMessage plan) }
           , state := s, log := { planCalls := 1 } }
    | _, _ =>
      some { resp :=
              { intent := { intent_type := .high_level_plan, confidence := 1.0, reasoning := "clarify selection" }
              , success := false, errors := errorStrings plan_out.errors }
           , state := s, log := { planCalls := 1 } }
  | .segment_definition => handleIdle env questions s action.label
  | .cut_analysis =>
    let prompt :=
      match truthyParam action.action_params "question_id" with
      | some qid => "analyze " ++ qid
      | none => (truthyParam action.action_params "request").getD action.label
    let cut_out := cutPlannerRun env prompt
    match cut_out.data, cut_out.ok with
    | some cut, true =>
      let exec_result := env.execCuts [cut]
      if exec_result.errors ≠ [] then
        some { resp :=
                { intent := { intent_type := .cut_analysis, confidence := 1.0, reasoning := "clarify selection" }
                , success := false, errors := exec_result.errors }
             , state := s, log := { cutPlanCalls := 1, execCalls := 1 } }
      else
        let table := exec_result.tables.head?
        some { resp :=
                { intent := { intent_type := .cut_analysis, confidence := 1.0, reasoning := "clarify selection" }
                , success := true
                , message := some (cutMessage cut questions s.segments_by_id
                    ((table.map ResultTable.base_n).getD 0) (table.bind ResultTable.preview)) }
             , state := s, log := { cutPlanCalls := 1, execCalls := 1 } }
    | _, _ =>
      some { resp :=
              { intent := { intent_type := .cut_analysis, confidence := 1.0, reasoning := "clarify selection" }
              , success := false, errors := errorStrings cut_out.errors }
           , state := s, log := { cutPlanCalls := 1 } }
  | .chat => handleIdle env questions s action.label

/-- Unreachable fallback for the bounds-checked pending-option access. -/
def defaultOption : DisambiguationOption :=
  { option_id := "", label := "", action_type := .chat }

/-- Orchestrator entry point `Agent.handle_message`: resolve or clear a
pending clarification first, then process the message through the idle
handler. A pending numeric selection within range dispatches the chosen
option with the pending slot already cleared; anything else clears the slot
and processes the current message as a fresh one. -/
def handleMessage (env : Env) (questions : List Question) (s : AgentState)
    (user_input : String) : Option TurnResult :=
  match s.pending with
  | none => handleIdle env questions s user_input
  | some opts =>
    let text := pyStrip user_input
    if pyIsDigitStr text then
      let idx := pyStrToNat text
      if 1 ≤ idx ∧ idx ≤ opts.length then
        executeAction env questions { s with pending := none } (opts.getD (idx - 1) defaultOption)
      else handleIdle env questions { s with pending := none } user_input
    else handleIdle env questions { s with pending := none } user_input

/-! ## Shared fixtures for the concrete scenarios -/

/-- Demo-style catalog with a categorical, a regional and a numeric
question, mirroring the ids the validation suite uses. -/
def demoQuestions : List Question :=
  [ { question_id := "Q_GENDER", label := "Gender", type := .single_choice }
  , { question_id := "Q_REGION", label := "Region", type := .single_choice }
  , { question_id := "Q_AGE", label := "Age", type := .numeric } ]

/-- Catalog with two satisfaction questions, as in the ambiguity fixtures. -/
def satQuestions : List Question :=
  [ { question_id := "Q_OVERALL_SAT", label := "Overall Satisfaction", type := .likert_1_5 }
  , { question_id := "Q_SUPPORT_SAT", label := "Support Satisfaction", type := .likert_1_5 } ]

/-- Catalog containing a subscription-plan question, which collides with the
planning command vocabulary. -/
def planQuestions : List Question :=
  [ { question_id := "Q_PLAN", label := "Subscription Plan", type := .single_choice } ]

/-- Environment in which every collaborator call raises, as when the LLM
transport is unavailable. -/
def failEnv : Env :=
  { chatOracle := fun _ => .error "boom"
  , planOracle := fun _ => .error "boom"
  , cutOracle := fun _ => .error "boom"
  , segOracle := fun _ => .error "boom"
  , execCuts := fun _ => {} }

/-- Segment the builder oracle can return whose definition references a
question id absent from every fixture catalog. -/
def segInvalid : SegmentSpec :=
  { segment_id := "seg_invalid", name := "Invalid Segment"
  , definition := .peq "UNKNOWN" (.pint 10) }

/-- Cut whose metric pairs `mean` with the single-choice question Q_GENDER,
failing the metric compatibility table. -/
def cutInvalidMetric : CutSpec :=
  { cut_id := "cut_invalid_metric"
  , metric := { type := .mean, question_id := "Q_GENDER" } }

/-- Environment whose segment builder returns `segInvalid` and whose cut
planner returns `cutInvalidMetric`, with an execution engine that reports a
table and no error. -/
def invalidSpecEnv : Env :=
  { failEnv with
    segOracle := fun _ => .ok segInvalid
    cutOracle := fun _ => .ok { cut := cutInvalidMetric }
    execCuts := fun _ => { tables := [{ base_n := 57 }] } }

/-! ## Claim theorems -/

/-- C10: on the empty input, `handle_message` fails with the missing-prompt
error of the intent classifier, invokes no planner, segment builder, chat
responder or executor, leaves the segment structures untouched and clears
any pending clarification. -/
theorem empty_input_is_inert (env : Env) (questions : List Question) (s : AgentState) :
    handleMessage env questions s "" = some
      { resp :=
          { intent := { intent_type := .chat, confidence := 0.0, reasoning := "intent failed" }
          , success := false
          , errors := ["missing_prompt: No user input provided"] }
      , state := { segments := s.segments, segments_by_id := s.segments_by_id, pending := none }
      , log := { intentCalls := 1 } } := by
  obtain ⟨segs, ids, pending⟩ := s
  cases pending <;> rfl

/-- C3 (divergence witness): on the input analyze satisfaction against a
catalog holding both satisfaction questions, `handle_message` does not
clarify: it classifies the message as cut analysis (weak label-token
signal) and invokes the cut planner, contradicting the clarify scenario
the spec and the ambiguity tests describe. -/
theorem analyze_satisfaction_is_not_clarified :
    ∃ r, handleMessage failEnv satQuestions {} "analyze satisfaction" = some r ∧
      r.resp.intent.intent_type = .cut_analysis ∧
      r.resp.intent.confidence = 0.75 ∧
      r.resp.clarify = none ∧
      r.log.cutPlanCalls = 1 ∧
      r.state.pending = none :=
  ⟨_, rfl, rfl, rfl, rfl, rfl, rfl⟩

/-- C2 (divergence witness): when the cut planner fails on a cut-routed
message, `handle_message` returns a failure response whose `message` field
is empty; the only user-visible text is the error-code string list, so no
polite non-null failure message is produced. -/
theorem tool_failure_has_no_message :
    ∃ r, handleMessage failEnv demoQuestions {} "create a cut displaying the mean gender" = some r ∧
      r.resp.success = false ∧
      r.resp.message = none ∧
      r.resp.errors = ["tool_error: Cut planning failed: boom"] :=
  ⟨_, rfl, rfl, rfl, rfl⟩

/-- C1 (divergence witness): the orchestrator performs no domain
validation. A segment whose definition references the unknown question id
UNKNOWN is registered into the session state exactly as delivered, and a
cut whose metric fails `check_metric_compatibility` (mean on the
single-choice Q_GENDER) is handed to the executor, which runs once. -/
theorem invalid_specs_mutate_and_execute :
    (∃ r, handleMessage invalidSpecEnv demoQuestions {} "define segment where unknown = 10" = some r ∧
      r.resp.success = true ∧
      r.state.segments = [segInvalid] ∧
      r.state.segments_by_id = [("seg_invalid", segInvalid)] ∧
      segInvalid.definition = .peq "UNKNOWN" (.pint 10) ∧
      demoQuestions.all (fun q => q.question_id != "UNKNOWN") = true) ∧
    (∃ r, handleMessage invalidSpecEnv demoQuestions {} "create a cut displaying the mean gender" = some r ∧
      lookupQuestion demoQuestions "Q_GENDER" =
        some { question_id := "Q_GENDER", label := "Gender", type := .single_choice } ∧
      check_metric_compatibility cutInvalidMetric.metric.type.render QuestionType.single_choice =
        some (err "metric_incompatible"
          "Metric mean is not compatible with question type") ∧
      r.log.execCalls = 1 ∧
      r.resp.success = true) :=
  ⟨⟨_, rfl, rfl, rfl, rfl, rfl, rfl⟩, ⟨_, rfl, rfl, rfl, rfl, rfl⟩⟩

/-! ## Helper lemmas -/

/-- Characterisation of the Boolean prefix test as the list prefix order. -/
lemma isPrefixList_iff_prefix (l m : List Char) : isPrefixList l m = true ↔ l <+: m := by
  induction l generalizing m with
  | nil => simp [isPrefixList, List.nil_prefix]
  | cons a as ih =>
    cases m with
    | nil => simp [isPrefixList]
    | cons b bs =>
      simp [isPrefixList, List.cons_prefix_cons, ih]

/-- Unfolding of the prefix test into the list prefix order. -/
lemma pyStartsWith_iff (s pre : String) : pyStartsWith s pre = true ↔ pre.toList <+: s.toList := by
  unfold pyStartsWith
  exact isPrefixList_iff_prefix _ _

/-- Character list of a concatenation. -/
lemma toList_append (a b : String) : (a ++ b).toList = a.toList ++ b.toList := by
  cases a
  cases b
  rfl

/-- The seed of the joining fold is a prefix of the joined string. -/
lemma pyJoin_foldl_prefix (sep : String) (rest : List String) (acc : String) :
    acc.toList <+: ((rest.foldl (fun a x => a ++ sep ++ x) acc)).toList := by
  induction rest generalizing acc with
  | nil => simp
  | cons x rest ih =>
    refine List.IsPrefix.trans ?_ (ih (acc ++ sep ++ x))
    rw [toList_append, toList_append]
    exact (List.prefix_append _ _).trans (List.prefix_append _ _)

/-- The head line is a prefix of a join. -/
lemma pyStartsWith_pyJoin (sep head : String) (rest : List String) :
    pyStartsWith (pyJoin sep (head :: rest)) head = true := by
  rw [pyStartsWith_iff]
  simpa [pyJoin] using pyJoin_foldl_prefix sep rest head

/-- The clarification builder is inert on the canonical segment-definition
prompt, whatever the catalog: the input is not a single token and carries
no plan token. -/
lemma maybeBuildClarification_define_alpha (questions : List Question) :
    maybeBuildClarification questions "define segment alpha" = none := by
  have htok : pySplit (pyStrip (pyLower (pyStrip "define segment alpha")))
      = ["define", "segment", "alpha"] := rfl
  have hne : ¬ (pyStrip "define segment alpha" = "") := by decide
  have hcon : (["define", "segment", "alpha"] : List String).contains "plan" = false := rfl
  have hlen : ((["define", "segment", "alpha"] : List String).length == 1) = false := rfl
  simp only [maybeBuildClarification, htok, hcon, hlen, Bool.false_and, Bool.and_false,
    Bool.and_self, Bool.not_false, Bool.false_or, if_neg hne]
  simp [planCollision, singleTokenMatches, hcon, dedupOptions]

/-- The clarification builder is inert on the planning prompt whenever no
catalog question collides with the plan vocabulary. -/
lemma maybeBuildClarification_create_plan (questions : List Question)
    (hnc : questions.any (fun q =>
      pyIn "plan" (pyLower q.label) || pyLower q.question_id == "q_plan") = false) :
    maybeBuildClarification questions "create an analysis plan" = none := by
  have htok : pySplit (pyStrip (pyLower (pyStrip "create an analysis plan")))
      = ["create", "an", "analysis", "plan"] := rfl
  have hne : ¬ (pyStrip "create an analysis plan" = "") := by decide
  have hcon : (["create", "an", "analysis", "plan"] : List String).contains "plan" = true := rfl
  have hlen : ((["create", "an", "analysis", "plan"] : List String).length == 1) = false := rfl
  have hpc : planCollision questions ["create", "an", "analysis", "plan"] = false := by
    simp only [planCollision, hcon, Bool.true_and]
    exact hnc
  simp only [maybeBuildClarification, htok, hcon, hlen, hpc, Bool.false_and, Bool.and_false,
    Bool.true_and, Bool.and_self, Bool.not_false, Bool.false_or, if_neg hne]
  simp [singleTokenMatches, dedupOptions]

/-- One segment-definition turn, computed: with no pending clarification
and a builder oracle returning `seg`, the canonical defining prompt routes
to the segment branch, filters the list, updates the map in place and
appends the new definition. -/
lemma handleMessage_define_segment (env : Env) (questions : List Question)
    (s : AgentState) (seg : SegmentSpec)
    (hpend : s.pending = none)
    (hseg : env.segOracle "define segment alpha" = Except.ok seg) :
    handleMessage env questions s "define segment alpha" = some
      { resp :=
          { intent :=
              { intent_type := .segment_definition, confidence := 0.95
              , reasoning := "Segment creation verb detected: define segment" }
          , success := true
          , message := some ("Created segment " ++ seg.name ++ " (" ++ seg.segment_id ++ ")") }
      , state :=
          { segments := s.segments.filter (fun t => t.segment_id != seg.segment_id) ++ [seg]
          , segments_by_id := dictInsert seg.segment_id seg s.segments_by_id
          , pending := none }
      , log := { intentCalls := 1, segBuildCalls := 1 } } := by
  obtain ⟨segs, ids, pending⟩ := s
  subst hpend
  show handleIdle env questions ⟨segs, ids, none⟩ "define segment alpha" = _
  unfold handleIdle
  rw [maybeBuildClarification_define_alpha]
  show (match (segmentBuilderRun env "define segment alpha").data,
      (segmentBuilderRun env "define segment alpha").ok with
    | some seg, true => _
    | _, _ => _) = _
  unfold segmentBuilderRun
  rw [if_neg (by decide : ¬ ("define segment alpha" : String) = ""), hseg]
  rfl

/-- Keys of a dict update are unchanged when the key is already present. -/
lemma dictInsert_keys_of_mem (k : String) (v : SegmentSpec)
    (m : List (String × SegmentSpec)) (hmem : (m.map Prod.fst).contains k = true) :
    (dictInsert k v m).map Prod.fst = m.map Prod.fst := by
  induction m with
  | nil => simp at hmem
  | cons kv rest ih =>
    by_cases h : kv.1 = k
    · simp [dictInsert, h]
    · simp only [List.map_cons, List.contains_cons] at hmem
      simp only [dictInsert, if_neg h, List.map_cons]
      have : (rest.map Prod.fst).contains k = true := by
        rcases Bool.or_eq_true_iff.mp hmem with h1 | h1
        · exact absurd (beq_iff_eq.mp h1).symm h
        · exact h1
      rw [ih this]

/-- Lookup of the updated key returns the new value. -/
lemma lookupSegment_dictInsert (k : String) (v : SegmentSpec)
    (m : List (String × SegmentSpec)) :
    lookupSegment (dictInsert k v m) k = some v := by
  induction m with
  | nil => simp [dictInsert, lookupSegment]
  | cons kv rest ih =>
    by_cases h : kv.1 = k
    · simp [dictInsert, h, lookupSegment]
    · simp only [dictInsert, if_neg h]
      simpa [lookupSegment, List.find?_cons, h] using ih

/-- Updating the same key twice keeps only the second value. -/
lemma dictInsert_dictInsert (k : String) (v1 v2 : SegmentSpec)
    (m : List (String × SegmentSpec)) :
    dictInsert k v2 (dictInsert k v1 m) = dictInsert k v2 m := by
  induction m with
  | nil => simp [dictInsert]
  | cons kv rest ih =>
    by_cases h : kv.1 = k
    · simp [dictInsert, h]
    · simp [dictInsert, if_neg h, ih]

/-- With unique keys, the updated map holds exactly one entry at the key. -/
lemma dictInsert_filter_key (k : String) (v : SegmentSpec)
    (m : List (String × SegmentSpec)) (hnodup : (m.map Prod.fst).Nodup) :
    (dictInsert k v m).filter (fun kv => kv.1 == k) = [(k, v)] := by
  induction m with
  | nil => simp [dictInsert]
  | cons kv rest ih =>
    simp only [List.map_cons, List.nodup_cons] at hnodup
    by_cases h : kv.1 = k
    · simp only [dictInsert, if_pos h, List.filter_cons, beq_self_eq_true, if_pos]
      have : rest.filter (fun kv => kv.1 == k) = [] := by
        rw [List.filter_eq_nil_iff]
        intro a ha hk
        exact hnodup.1 (h ▸ beq_iff_eq.mp hk ▸ List.mem_map_of_mem Prod.fst ha)
      simp [this]
    · have hb : (kv.1 == k) = false := beq_eq_false_iff_ne.mpr h
      simp only [dictInsert, if_neg h, List.filter_cons, hb]
      simpa using ih hnodup.2

/-- Environment whose high-level planner succeeds with a one-item stub plan
and whose other collaborators raise. -/
def planOkEnv : Env :=
  { failEnv with
    planOracle := fun _ => .ok
      { intents := [{ intent_id := "intent_001", description := "Stub analysis" }]
      , rationale := "Stub rationale" } }

/-- C6 (counterexample): against a catalog containing the question Q_PLAN
(label Subscription Plan), the input create an analysis plan trips the
plan-collision clarification before intent classification, so
`handle_message` answers with intent clarify and the planner never runs,
even though the planner oracle would succeed. -/
theorem create_plan_clarifies_on_plan_catalog :
    ∃ r, handleMessage planOkEnv planQuestions {} "create an analysis plan" = some r ∧
      r.resp.intent.intent_type = .clarify ∧
      r.log.planCalls = 0 ∧
      (r.resp.clarify.map (fun c => c.options.map (fun o => o.option_id)))
        = some ["opt_high_level_plan", "opt_cut_q_plan"] :=
  ⟨_, rfl, rfl, rfl, rfl⟩

/-- C6 (amended): when no catalog question collides with the plan
vocabulary and no clarification is pending, the input create an analysis
plan classifies as high_level_plan, the planner runs, and on success the
message starts with the Analysis plan: header. -/
theorem create_plan_routes_to_planner (env : Env) (questions : List Question)
    (s : AgentState) (hpend : s.pending = none)
    (hnc : questions.any (fun q =>
      pyIn "plan" (pyLower q.label) || pyLower q.question_id == "q_plan") = false) :
    ∃ r, handleMessage env questions s "create an analysis plan" = some r ∧
      r.resp.intent.intent_type = .high_level_plan ∧
      r.log.planCalls = 1 ∧
      (r.resp.success = true →
        ∃ m, r.resp.message = some m ∧ pyStartsWith m "Analysis plan:" = true) := by
  obtain ⟨segs, ids, pending⟩ := s
  subst hpend
  show ∃ r, handleIdle env questions ⟨segs, ids, none⟩ "create an analysis plan" = some r ∧ _
  unfold handleIdle
  rw [maybeBuildClarification_create_plan questions hnc]
  show ∃ r, (match (highLevelPlannerRun env "create an analysis plan").data,
      (highLevelPlannerRun env "create an analysis plan").ok with
    | some plan, true => _
    | _, _ => _) = some r ∧ _
  unfold highLevelPlannerRun
  rcases hp : env.planOracle "create an analysis plan" with e | plan
  · exact ⟨_, rfl, rfl, rfl, fun h => by simp at h⟩
  · exact ⟨_, rfl, rfl, rfl, fun _ => ⟨_, rfl, pyStartsWith_pyJoin "\n" "Analysis plan:" _⟩⟩

/-- C6 (witness): the amended claim at a concrete collision-free catalog
and a succeeding planner oracle. -/
theorem create_plan_routes_to_planner_witness :
    ∃ r, handleMessage planOkEnv satQuestions {} "create an analysis plan" = some r ∧
      r.resp.intent.intent_type = .high_level_plan ∧
      r.log.planCalls = 1 ∧
      (r.resp.success = true →
        ∃ m, r.resp.message = some m ∧ pyStartsWith m "Analysis plan:" = true) :=
  create_plan_routes_to_planner planOkEnv satQuestions {} rfl (by decide)

/-- Segment fixtures for the redefinition scenarios. -/
def segA : SegmentSpec :=
  { segment_id := "seg_a", name := "Segment A", definition := .peq "Q_GENDER" (.pstr "M") }

/-- Second stored segment of the redefinition scenario. -/
def segB : SegmentSpec :=
  { segment_id := "seg_b", name := "Segment B", definition := .peq "Q_REGION" (.pstr "N") }

/-- Replacement definition carrying the id of `segA`. -/
def segA2 : SegmentSpec :=
  { segment_id := "seg_a", name := "Segment A v2", definition := .peq "Q_AGE" (.pint 30) }

/-- Environment whose segment builder returns the replacement `segA2`. -/
def envA2 : Env := { failEnv with segOracle := fun _ => .ok segA2 }

/-- Session already holding `segA` then `segB`, in that insertion order. -/
def stateAB : AgentState :=
  { segments := [segA, segB]
  , segments_by_id := [("seg_a", segA), ("seg_b", segB)] }

/-- C7 (counterexample): redefining seg_a in a session holding seg_a then
seg_b moves the redefined segment to the end of the `segments` list view
(index 1 instead of its original index 0), so the original position is not
preserved there; the map view keeps the key order. -/
theorem redefined_segment_moves_to_list_end :
    ∃ r, handleMessage envA2 demoQuestions stateAB "define segment alpha" = some r ∧
      stateAB.segments.map SegmentSpec.segment_id = ["seg_a", "seg_b"] ∧
      r.state.segments.map SegmentSpec.segment_id = ["seg_b", "seg_a"] ∧
      r.state.segments.map SegmentSpec.name = ["Segment B", "Segment A v2"] ∧
      r.state.segments_by_id.map Prod.fst = ["seg_a", "seg_b"] :=
  ⟨_, handleMessage_define_segment envA2 demoQuestions stateAB segA2 rfl rfl, rfl, rfl, rfl, rfl⟩

/-- C7 (amended): redefining a stored segment replaces the prior
definition; the map view `segments_by_id` keeps the segment at its original
key position with the new value, while the `segments` list view drops the
old entry and appends the new definition at the end. -/
theorem segment_redefinition_replaces (env : Env) (questions : List Question)
    (s : AgentState) (seg : SegmentSpec)
    (hpend : s.pending = none)
    (hseg : env.segOracle "define segment alpha" = Except.ok seg)
    (hmem : (s.segments_by_id.map Prod.fst).contains seg.segment_id = true) :
    ∃ r, handleMessage env questions s "define segment alpha" = some r ∧
      r.state.segments_by_id.map Prod.fst = s.segments_by_id.map Prod.fst ∧
      lookupSegment r.state.segments_by_id seg.segment_id = some seg ∧
      r.state.segments = s.segments.filter (fun t => t.segment_id != seg.segment_id) ++ [seg] :=
  ⟨_, handleMessage_define_segment env questions s seg hpend hseg,
    dictInsert_keys_of_mem seg.segment_id seg s.segments_by_id hmem,
    lookupSegment_dictInsert seg.segment_id seg s.segments_by_id, rfl⟩

/-- C7 (witness): the amended claim at the concrete two-segment session. -/
theorem segment_redefinition_replaces_witness :
    ∃ r, handleMessage envA2 demoQuestions stateAB "define segment alpha" = some r ∧
      r.state.segments_by_id.map Prod.fst = stateAB.segments_by_id.map Prod.fst ∧
      lookupSegment r.state.segments_by_id segA2.segment_id = some segA2 ∧
      r.state.segments = stateAB.segments.filter (fun t => t.segment_id != segA2.segment_id) ++ [segA2] :=
  segment_redefinition_replaces envA2 demoQuestions stateAB segA2 rfl rfl (by decide)

/-- Filtering for a key after filtering it away yields nothing. -/
lemma filter_eq_after_filter_ne (l : List SegmentSpec) (k : String) :
    (l.filter (fun t => t.segment_id != k)).filter (fun t => t.segment_id == k) = [] := by
  induction l with
  | nil => rfl
  | cons t rest ih =>
    by_cases h : t.segment_id = k
    · simp [List.filter_cons, h, ih]
    · simp [List.filter_cons, h, bne_iff_ne, ih]

/-- Third definition carrying the id of `segA`, used as the second
redefinition of the idempotence witness. -/
def segA3 : SegmentSpec :=
  { segment_id := "seg_a", name := "Segment A v3", definition := .peq "Q_REGION" (.pstr "S") }

/-- Environment whose segment builder returns `segA3`. -/
def envA3 : Env := { failEnv with segOracle := fun _ => .ok segA3 }

/-- C8: defining a segment twice under the same id leaves exactly one entry
for that id in the segment list and in the segment map, and that entry is
the second (newest) definition. -/
theorem segment_double_definition_single_entry
    (env1 env2 : Env) (questions : List Question) (s : AgentState)
    (seg1 seg2 : SegmentSpec)
    (hpend : s.pending = none)
    (hnodup : (s.segments_by_id.map Prod.fst).Nodup)
    (h1 : env1.segOracle "define segment alpha" = Except.ok seg1)
    (h2 : env2.segOracle "define segment alpha" = Except.ok seg2)
    (hid : seg2.segment_id = seg1.segment_id) :
    ∃ r1 r2,
      handleMessage env1 questions s "define segment alpha" = some r1 ∧
      handleMessage env2 questions r1.state "define segment alpha" = some r2 ∧
      r2.state.segments.filter (fun t => t.segment_id == seg2.segment_id) = [seg2] ∧
      r2.state.segments_by_id.filter (fun kv => kv.1 == seg2.segment_id)
        = [(seg2.segment_id, seg2)] ∧
      lookupSegment r2.state.segments_by_id seg2.segment_id = some seg2 := by
  have t2 := handleMessage_define_segment env2 questions
    { segments := s.segments.filter (fun t => t.segment_id != seg1.segment_id) ++ [seg1]
    , segments_by_id := dictInsert seg1.segment_id seg1 s.segments_by_id
    , pending := none } seg2 rfl h2
  refine ⟨_, _, handleMessage_define_segment env1 questions s seg1 hpend h1, t2, ?_, ?_, ?_⟩
  · show ((_ : List SegmentSpec).filter (fun t => t.segment_id != seg2.segment_id) ++ [seg2]).filter
        (fun t => t.segment_id == seg2.segment_id) = [seg2]
    rw [List.filter_append, filter_eq_after_filter_ne]
    simp
  · show (dictInsert seg2.segment_id seg2
        (dictInsert seg1.segment_id seg1 s.segments_by_id)).filter
        (fun kv => kv.1 == seg2.segment_id) = [(seg2.segment_id, seg2)]
    rw [hid, dictInsert_dictInsert]
    rw [← hid]
    exact dictInsert_filter_key seg2.segment_id seg2 s.segments_by_id hnodup
  · exact lookupSegment_dictInsert seg2.segment_id seg2 _

/-- C8 (witness): two concrete redefinitions of seg_a in an empty session
leave exactly the newest definition. -/
theorem segment_double_definition_single_entry_witness :
    ∃ r1 r2,
      handleMessage envA2 demoQuestions {} "define segment alpha" = some r1 ∧
      handleMessage envA3 demoQuestions r1.state "define segment alpha" = some r2 ∧
      r2.state.segments.filter (fun t => t.segment_id == segA3.segment_id) = [segA3] ∧
      r2.state.segments_by_id.filter (fun kv => kv.1 == segA3.segment_id)
        = [(segA3.segment_id, segA3)] ∧
      lookupSegment r2.state.segments_by_id segA3.segment_id = some segA3 :=
  segment_double_definition_single_entry envA2 envA3 demoQuestions {} segA2 segA3 rfl
    (by simp) rfl rfl rfl

/-- C9: when no explicit analysis-planning phrase occurs but the text
carries both an analysis action verb and a segment noun, the classifier
returns cut_analysis with confidence 0.9 (the multi-intent override). -/
theorem multi_intent_override_wins (prompt : String) (questions : List Question)
    (hplan : ∀ v ∈ plan_verbs, pyIn v (pyStrip (pyLower prompt)) = false)
    (hact : analysis_action_verbs.any (fun verb => pyIn verb (pyStrip (pyLower prompt))) = true)
    (hseg : segment_words.any (fun word => pyIn word (pyStrip (pyLower prompt))) = true) :
    classifyIntent prompt questions =
      { intent_type := .cut_analysis, confidence := 0.9
      , reasoning := "Multi-intent detected: analysis action takes priority" } := by
  have hfind : plan_verbs.find? (fun verb => pyIn verb (pyStrip (pyLower prompt))) = none :=
    List.find?_eq_none.mpr (fun v hv => by simp [hplan v hv])
  simp only [classifyIntent, hfind, hact, hseg, Bool.and_self, if_true]

/-- C9 (witness): the override on the prompt analyze the segment with an
empty catalog. -/
theorem multi_intent_override_wins_witness :
    classifyIntent "analyze the segment" [] =
      { intent_type := .cut_analysis, confidence := 0.9
      , reasoning := "Multi-intent detected: analysis action takes priority" } :=
  multi_intent_override_wins "analyze the segment" [] (by decide) (by decide) (by decide)

/-- Membership after de-duplication implies membership before. -/
lemma mem_dedupOptions (seen : List String) (l : List DisambiguationOption)
    (o : DisambiguationOption) (h : o ∈ dedupOptions seen l) : o ∈ l := by
  induction l generalizing seen with
  | nil => simp [dedupOptions] at h
  | cons a rest ih =>
    by_cases hc : seen.contains a.option_id = true
    · simp only [dedupOptions, if_pos hc] at h
      exact List.mem_cons_of_mem a (ih _ h)
    · simp only [dedupOptions, if_neg hc, List.mem_cons] at h
      rcases h with h | h
      · exact h ▸ List.mem_cons_self a rest
      · exact List.mem_cons_of_mem a (ih _ h)

/-- De-duplication keeps an element whose id the seen set does not hold. -/
lemma dedupOptions_ne_nil (seen : List String) (l : List DisambiguationOption)
    (h : ∃ o ∈ l, seen.contains o.option_id = false) : dedupOptions seen l ≠ [] := by
  induction l generalizing seen with
  | nil => simp at h
  | cons a rest ih =>
    by_cases hc : seen.contains a.option_id = true
    · rw [dedupOptions, if_pos hc]
      obtain ⟨o, ho, hso⟩ := h
      rcases List.mem_cons.mp ho with rfl | ho
      · rw [hc] at hso
        simp at hso
      · exact ih seen ⟨o, ho, hso⟩
    · rw [dedupOptions, if_neg hc]
      simp

/-- A some-result for the final step of the clarification builder when the
de-duplicated option list is visibly nonempty. -/
lemma exists_some_of_clarify_tail (pre : List DisambiguationOption)
    (o : DisambiguationOption) (post : List DisambiguationOption) (q : String) :
    ∃ c, (if (dedupOptions [] (pre ++ o :: post)).isEmpty = true then none
          else some ({ question := q
                     , options := (dedupOptions [] (pre ++ o :: post)).take 5 } : ClarifyRequest))
      = some c := by
  have hne : dedupOptions [] (pre ++ o :: post) ≠ [] :=
    dedupOptions_ne_nil [] _ ⟨o, List.mem_append_right _ (List.mem_cons_self o post), rfl⟩
  rcases hd : dedupOptions [] (pre ++ o :: post) with _ | ⟨d, ds⟩
  · exact absurd hd hne
  · exact ⟨_, rfl⟩

/-- The clarification builder fires whenever the trimmed input is a single
token matched by at least two catalog questions. -/
lemma maybeBuildClarification_isSome_of_multi (questions : List Question) (input : String)
    (hsingle : (pySplit (pyStrip (pyLower (pyStrip input)))).length = 1)
    (hmulti : 2 ≤ (questions.filter (fun q =>
        pyStrip (pyLower (pyStrip input)) == pyLower q.question_id ||
        pyIn (pyStrip (pyLower (pyStrip input))) (pyLower q.label))).length) :
    ∃ c, maybeBuildClarification questions input = some c := by
  have hT : ¬ (pyStrip input = "") := by
    intro hT
    rw [hT] at hsingle
    exact absurd hsingle (by decide)
  have hbeq : ((pySplit (pyStrip (pyLower (pyStrip input)))).length == 1) = true := by
    simp [hsingle]
  have hle : (decide ((questions.filter (fun q =>
      pyStrip (pyLower (pyStrip input)) == pyLower q.question_id ||
      pyIn (pyStrip (pyLower (pyStrip input))) (pyLower q.label))).length ≤ 1)) = false :=
    decide_eq_false (by omega)
  have hstm : singleTokenMatches questions true (pyStrip (pyLower (pyStrip input)))
      = questions.filter (fun q =>
          pyStrip (pyLower (pyStrip input)) == pyLower q.question_id ||
          pyIn (pyStrip (pyLower (pyStrip input))) (pyLower q.label)) := by
    simp [singleTokenMatches]
  unfold maybeBuildClarification
  rw [if_neg hT]
  simp only [hbeq, Bool.true_and, hstm, hle, Bool.and_false, Bool.false_and, Bool.false_eq_true,
    if_false]
  obtain ⟨f0, rest, hF⟩ : ∃ f0 rest, questions.filter (fun q =>
      pyStrip (pyLower (pyStrip input)) == pyLower q.question_id ||
      pyIn (pyStrip (pyLower (pyStrip input))) (pyLower q.label)) = f0 :: rest := by
    rcases hQ : questions.filter (fun q =>
      pyStrip (pyLower (pyStrip input)) == pyLower q.question_id ||
      pyIn (pyStrip (pyLower (pyStrip input))) (pyLower q.label)) with _ | ⟨f0, rest⟩
    · rw [hQ] at hmulti
      simp at hmulti
    · exact ⟨f0, rest, hQ⟩
  rw [hF]
  simp only [List.take_succ_cons, List.map_cons]
  exact exists_some_of_clarify_tail _ _ _ _

/-- C4: from the idle state, a single-token input matched by more than one
catalog question makes `handle_message` answer with intent clarify on a
successful response, mutate no segment state, set the pending options and
invoke no tool at all: in particular zero executions. -/
theorem single_token_multi_match_clarifies (env : Env) (questions : List Question)
    (s : AgentState) (input : String)
    (hpend : s.pending = none)
    (hsingle : (pySplit (pyStrip (pyLower (pyStrip input)))).length = 1)
    (hmulti : 2 ≤ (questions.filter (fun q =>
        pyStrip (pyLower (pyStrip input)) == pyLower q.question_id ||
        pyIn (pyStrip (pyLower (pyStrip input))) (pyLower q.label))).length) :
    ∃ r, handleMessage env questions s input = some r ∧
      r.resp.intent.intent_type = .clarify ∧
      r.resp.success = true ∧
      r.state.segments = s.segments ∧
      r.state.segments_by_id = s.segments_by_id ∧
      r.log = {} := by
  obtain ⟨c, hc⟩ := maybeBuildClarification_isSome_of_multi questions input hsingle hmulti
  obtain ⟨segs, ids, pending⟩ := s
  subst hpend
  show ∃ r, handleIdle env questions ⟨segs, ids, none⟩ input = some r ∧ _
  unfold handleIdle
  rw [hc]
  exact ⟨_, rfl, rfl, rfl, rfl, rfl, rfl⟩

/-- C4 (witness): the single token satisfaction against the two-question
satisfaction catalog clarifies without touching state. -/
theorem single_token_multi_match_clarifies_witness :
    ∃ r, handleMessage failEnv satQuestions {} "satisfaction" = some r ∧
      r.resp.intent.intent_type = .clarify ∧
      r.resp.success = true ∧
      r.state.segments = AgentState.segments {} ∧
      r.state.segments_by_id = AgentState.segments_by_id {} ∧
      r.log = {} :=
  single_token_multi_match_clarifies failEnv satQuestions {} "satisfaction" rfl
    (by decide) (by decide)

/-- Options of any built clarification carry only the planning and cut
action types: the clarification selection path never needs the intent
classifier. -/
lemma clarify_options_action_types (questions : List Question) (input : String)
    (c : ClarifyRequest) (hc : maybeBuildClarification questions input = some c) :
    ∀ o ∈ c.options,
      o.action_type = ActionType.high_level_plan ∨ o.action_type = ActionType.cut_analysis := by
  intro o ho
  unfold maybeBuildClarification at hc
  by_cases hT : pyStrip input = ""
  · rw [if_pos hT] at hc
    cases hc
  · rw [if_neg hT] at hc
    by_cases hE : (((pySplit (pyStrip (pyLower (pyStrip input)))).length == 1 &&
        decide ((singleTokenMatches questions
          ((pySplit (pyStrip (pyLower (pyStrip input)))).length == 1)
          (pyStrip (pyLower (pyStrip input)))).length ≤ 1)) &&
        !(planCollision questions (pySplit (pyStrip (pyLower (pyStrip input)))))) = true
    · rw [if_pos hE] at hc
      cases hc
    · rw [if_neg hE] at hc
      by_cases hD : (dedupOptions []
          ((if planCollision questions (pySplit (pyStrip (pyLower (pyStrip input)))) = true
            then planOptions questions else []) ++
            ((singleTokenMatches questions
              ((pySplit (pyStrip (pyLower (pyStrip input)))).length == 1)
              (pyStrip (pyLower (pyStrip input)))).take 5).map
              (matchOption questions))).isEmpty = true
      · rw [if_pos hD] at hc
        cases hc
      · rw [if_neg hD] at hc
        injection hc with hc
        subst hc
        have ho2 := mem_dedupOptions _ _ _ (List.mem_of_mem_take ho)
        rcases List.mem_append.mp ho2 with h | h
        · by_cases hpc : planCollision questions
              (pySplit (pyStrip (pyLower (pyStrip input)))) = true
          · rw [if_pos hpc] at h
            unfold planOptions at h
            rcases List.mem_cons.mp h with rfl | h
            · exact Or.inl rfl
            · rcases hq : lookupQuestion questions "Q_PLAN" with _ | qp
              · rw [hq] at h
                simp at h
              · rw [hq] at h
                rw [List.mem_singleton.mp h]
                exact Or.inr rfl
          · rw [if_neg hpc] at h
            simp at h
        · obtain ⟨q, hq, rfl⟩ := List.mem_map.mp h
          exact Or.inr rfl

/-- C5: the pending-clarification protocol. The state holds at most one
pending option set by construction (a single optional field). From
AwaitingSelection: a pure in-range integer resolves that option with the
pending slot already cleared and is dispatched by `_execute_action`; an
out-of-range integer or any non-numeric input clears the slot and the
current message is processed exactly as a fresh message in the same turn.
Directly dispatched planning and cut options never invoke the intent
classifier, and built clarifications only carry those two action types. -/
theorem pending_clarification_protocol (env : Env) (questions : List Question)
    (s : AgentState) (opts : List DisambiguationOption) (input : String)
    (hpend : s.pending = some opts) :
    ((pyIsDigitStr (pyStrip input) = true ∧
        1 ≤ pyStrToNat (pyStrip input) ∧ pyStrToNat (pyStrip input) ≤ opts.length) →
      handleMessage env questions s input =
        executeAction env questions
          { segments := s.segments, segments_by_id := s.segments_by_id, pending := none }
          (opts.getD (pyStrToNat (pyStrip input) - 1) defaultOption)) ∧
    ((pyIsDigitStr (pyStrip input) = false ∨
        ¬ (1 ≤ pyStrToNat (pyStrip input) ∧ pyStrToNat (pyStrip input) ≤ opts.length)) →
      handleMessage env questions s input =
        handleMessage env questions
          { segments := s.segments, segments_by_id := s.segments_by_id, pending := none }
          input) ∧
    (∀ a r, (a.action_type = ActionType.high_level_plan ∨
        a.action_type = ActionType.cut_analysis) →
      executeAction env questions
        { segments := s.segments, segments_by_id := s.segments_by_id, pending := none } a
        = some r →
      r.log.intentCalls = 0) ∧
    (∀ c, maybeBuildClarification questions input = some c →
      ∀ o ∈ c.options,
        o.action_type = ActionType.high_level_plan ∨
        o.action_type = ActionType.cut_analysis) := by
  obtain ⟨segs, ids, pending⟩ := s
  subst hpend
  refine ⟨?_, ?_, ?_, ?_⟩
  · rintro ⟨h1, h2, h3⟩
    show (if pyIsDigitStr (pyStrip input) = true then _ else _) = _
    rw [if_pos h1, if_pos ⟨h2, h3⟩]
  · intro hfail
    show (if pyIsDigitStr (pyStrip input) = true then _ else _) = _
    rcases hfail with h | h
    · rw [if_neg (by simp [h])]
      rfl
    · by_cases hd : pyIsDigitStr (pyStrip input) = true
      · rw [if_pos hd, if_neg h]
        rfl
      · rw [if_neg hd]
        rfl
  · rintro a r hat happ
    obtain ⟨oid, lbl, atype, params⟩ := a
    rcases hat with hat | hat <;> cases hat
    · unfold executeAction at happ
      dsimp only at happ
      split at happ <;> (injection happ with h; subst h; rfl)
    · unfold executeAction at happ
      dsimp only at happ
      split at happ
      · split at happ <;> (injection happ with h; subst h; rfl)
      · injection happ with h
        subst h
        rfl
  · exact fun c hc => clarify_options_action_types questions input c hc

/-- First pending option of the selection witness. -/
def optPlanW : DisambiguationOption :=
  { option_id := "opt_high_level_plan", label := "Create analysis plan"
  , action_type := .high_level_plan }

/-- Second pending option of the selection witness. -/
def optCutW : DisambiguationOption :=
  { option_id := "opt_cut_Q_NPS", label := "Analyze Net Promoter Score (Q_NPS)"
  , action_type := .cut_analysis, action_params := [("question_id", "Q_NPS")] }

/-- C5 (witness): replying 2 to a two-option pending clarification
dispatches the second option directly with the pending slot cleared. -/
theorem pending_clarification_protocol_witness :
    handleMessage failEnv satQuestions
        { segments := [], segments_by_id := [], pending := some [optPlanW, optCutW] } "2"
      = executeAction failEnv satQuestions {}
          ([optPlanW, optCutW].getD (pyStrToNat (pyStrip "2") - 1) defaultOption) :=
  (pending_clarification_protocol failEnv satQuestions
    { segments := [], segments_by_id := [], pending := some [optPlanW, optCutW] }
    [optPlanW, optCutW] "2" rfl).1 ⟨by decide, by decide, by decide⟩

end Ascentra
